import Mathlib

/-!
# Verification of `Analysis_Demo_(Interactive).py`

A shallow embedding of the SNT demo-orchestration script
`src/main/resources/script_templates/Neuroanatomy/Analysis/Analysis_Demo_(Interactive).py`.

The script is straight-line glue code over the SNT host application: it
optionally boots the GUI, fetches a bundled demo reconstruction, pauses the
host UI state machine, loads the tree, computes inter-node-distance summary
statistics, downsamples the tree in place with a 10-unit target spacing,
recomputes the statistic, and finally pushes the downsampled tree (cyan) and a
freshly re-fetched demo tree (yellow) into the host's 3D reconstruction
viewer.

The script itself is the only source file of the repository fragment; every
host-side operation it invokes (`Tree.downSample`, the statistics service, the
viewer) lives in the host application whose code is not part of the fragment.
Those operations are therefore modelled from the specification's description
of them; each such definition carries a doc comment starting with
`Modelled from the spec:`.  The script's own control flow (its two guards and
its fixed sequence of host calls) is translated line by line into the `run`
function below, which returns the sequence of host calls made (`trace`), the
way the run ended (`outcome`) and the final contents of the host's 3D viewer
(`viewer`).

Coordinates are modelled as rationals and squared Euclidean distances are used
throughout: the square function is strictly monotone on nonnegative reals, so
every comparison of distances (in particular comparisons of minima of
distances) holds for the true distances iff it holds for the squared ones.
-/

/-- A 3D node position (host class `PointInImage`).  Coordinates are modelled
as rationals. -/
structure PointInImage where
  x : ℚ
  y : ℚ
  z : ℚ
deriving DecidableEq, Repr

/-- Squared Euclidean distance between two node positions. -/
def dist2 (a b : PointInImage) : ℚ :=
  (a.x - b.x) ^ 2 + (a.y - b.y) ^ 2 + (a.z - b.z) ^ 2

/-- A traced `Path`: its sequence of node positions. -/
def PathM := List PointInImage
deriving DecidableEq, Repr

/-- A `Tree`: a collection of Paths plus the label and color the script can
set on it (`Tree.setLabel`, `Tree.setColor`). -/
structure TreeM where
  paths : List PathM
  label : Option String := none
  color : Option String := none
deriving DecidableEq, Repr

/-- Modelled from the spec: `Path.downsample` is implemented in the host
application, not in this repository fragment.  The spec describes downsampling
as "reducing node density along non-critical tree segments while preserving
topology-defining points", "imposing 10um between 'shaft' nodes", with branch
points and tip positions not altered.  We model it per path as a greedy
thinning over the node sequence: the first node is always kept, an interior
('shaft') node is kept only once its distance from the previously kept node
has reached the target spacing, and the final node is always kept.  Kept nodes
are never moved.  `s2` is the squared target spacing and `k` the previously
kept node. -/
def dsAux (s2 : ℚ) (k : PointInImage) : List PointInImage → List PointInImage
  | [] => []
  | [p] => [p]
  | p :: q :: rest =>
    if s2 ≤ dist2 k p then p :: dsAux s2 p (q :: rest)
    else dsAux s2 k (q :: rest)

/-- Downsampling of one path: keep the first node, thin the rest greedily
(see `dsAux`). -/
def downsamplePath (s2 : ℚ) : PathM → PathM
  | [] => []
  | p :: rest => p :: dsAux s2 p rest

/-- Modelled from the spec: `Tree.downSample(d)` downsamples every path of
the tree with target spacing `d` (the squared spacing `d * d` is passed to
the squared-distance-based path thinning). -/
def downSample (d : ℚ) (t : TreeM) : TreeM :=
  { t with paths := t.paths.map (downsamplePath (d * d)) }

/-- The list of squared distances between consecutive nodes of a path: the
per-path values of the `TreeStatistics.INTER_NODE_DISTANCE` metric. -/
def interDist2s : PathM → List ℚ
  | [] => []
  | [_] => []
  | a :: b :: rest => dist2 a b :: interDist2s (b :: rest)

/-- The list of squared distances between every ordered pair of (not
necessarily consecutive) nodes of a path. -/
def pairDist2s : PathM → List ℚ
  | [] => []
  | a :: rest => rest.map (dist2 a) ++ pairDist2s rest

/-- All inter-node squared distances of a tree, over all of its paths. -/
def treeDist2s (t : TreeM) : List ℚ :=
  (t.paths.map interDist2s).flatten

/-- All pairwise node squared distances of a tree, over all of its paths. -/
def treePairDist2s (t : TreeM) : List ℚ :=
  (t.paths.map pairDist2s).flatten

/-- Minimum of a list of rationals, `none` on the empty list. -/
def minQ? : List ℚ → Option ℚ
  | [] => none
  | a :: rest =>
    some (match minQ? rest with
          | none => a
          | some m => min a m)

/-- Modelled from the spec: `TreeStatistics.getSummaryStats(INTER_NODE_DISTANCE).getMin()`
computes the minimum inter-node distance of the tree; here its square, i.e.
the minimum of the squared consecutive-node distances. -/
def minD2 (t : TreeM) : Option ℚ :=
  minQ? (treeDist2s t)

/-- Minimum squared distance over all ordered pairs of nodes within a path of
the tree. -/
def minPairD2 (t : TreeM) : Option ℚ :=
  minQ? (treePairDist2s t)

/-- Asserts that `m` is the (true, non-squared) minimum inter-node distance of `t`:
nonnegative and with `m ^ 2` the minimum squared consecutive distance. -/
def isMinDist (t : TreeM) (m : ℚ) : Prop :=
  0 ≤ m ∧ minD2 t = some (m ^ 2)

/-- The integer the script actually sends to the console for a statistic
value `m`: the script formats with Python's `"%d"`, which converts the
floating-point value through `int()`, truncating toward zero. -/
def printedValue (m : ℚ) : ℤ :=
  m.num.tdiv m.den

/-- The UI states of the host `SNTUI` state machine that the script refers
to.  Only `TRACING_PAUSED` is used. -/
inductive SNTUIState where
  | TRACING_PAUSED
deriving DecidableEq, Repr

/-- One host call made by the script.  Constructors appear in the order the
corresponding lines occur in `run()` of the source script.  Analyzer and
statistics objects are identified by allocation order: the `TreeAnalyzer`
obtained from `snt.getAnalyzer(False)` is object `0`, the `TreeStatistics`
from `snt.getStatistics(False)` is object `1`, and the `TreeStatistics`
rebuilt from the downsampled tree via `TreeStatistics(tree)` is object `2`. -/
inductive Event where
  /-- Call of `snt.initialize(True)` (display GUI enabled). -/
  | initGUI (gui : Bool)
  /-- Call of `snt.demoTree()`; `ok` records whether a tree was returned. -/
  | demoTree (ok : Bool)
  /-- Call of `ui.showDialog(msg, title)`. -/
  | showDialog (msg title : String)
  /-- Call of `snt.getUI().changeState(s)`. -/
  | changeState (s : SNTUIState)
  /-- Call of `snt.loadTree(t)`. -/
  | loadTree (t : TreeM)
  /-- Call of `snt.getAnalyzer(selectedOnly)`, allocating analyzer object `id`. -/
  | getAnalyzer (selectedOnly : Bool) (id : ℕ)
  /-- Call of `snt.getStatistics(selectedOnly)`, allocating statistics object `id`. -/
  | getStatistics (selectedOnly : Bool) (id : ℕ)
  /-- Call of `analyzer.summarize(title, split)` on analyzer object `id`. -/
  | summarize (id : ℕ) (title : String) (split : Bool)
  /-- Call of `analyzer.updateAndDisplayTable()` on analyzer object `id`. -/
  | updateTable (id : ℕ)
  /-- Call of `stats.getSummaryStats(INTER_NODE_DISTANCE)` on statistics object `id`. -/
  | getSummaryStats (id : ℕ)
  /-- Call of `stats.getHistogram(INTER_NODE_DISTANCE).show()` on statistics object `id`. -/
  | histogramShow (id : ℕ)
  /-- Call of `print` with format text `label` and a `%d`-converted statistic. -/
  | printLine (label : String)
  /-- Call of `snt.getTree(selectedOnly)`. -/
  | getTree (selectedOnly : Bool)
  /-- Call of `tree.downSample(d)`. -/
  | downSampleCall (d : ℚ)
  /-- Call of `tree.setLabel(l)`. -/
  | setLabel (l : String)
  /-- Call of the constructor `TreeStatistics(tree)`, allocating statistics object `id`. -/
  | newTreeStatistics (id : ℕ)
  /-- Call of `tree.setColor(c)`. -/
  | setColor (c : String)
  /-- Call of `snt.getRecViewer().show()`. -/
  | recViewerShow
  /-- Call of `snt.getPlugin().updateAllViewers()`. -/
  | updateAllViewers
deriving DecidableEq, Repr

/-- How a run ended: normally, by the guarded early `return`, or with an
unhandled Python fault. -/
inductive Outcome where
  | finished
  | earlyExit
  | fault (msg : String)
deriving DecidableEq, Repr

/-- Result of one execution of `run()`: the sequence of host calls made, how
the run ended, and the final contents of the host's 3D reconstruction
viewer. -/
structure RunResult where
  trace : List Event
  outcome : Outcome
  viewer : List TreeM
deriving DecidableEq, Repr

/-- The two host calls of the failure branch of the first guard: the failed
`snt.demoTree()` and the error dialog. -/
def dialogTrace : List Event :=
  [Event.demoTree false,
   Event.showDialog "Somehow could not load bundled file." "Error"]

/-- The host calls from the successful `snt.demoTree()` up to and including
`tree.setColor("cyan")`, in source order: pause the UI, load `demo`, get the
analyzer (object 0) and statistics (object 1), first summary and table, first
summary-stats/histogram/print, get the tree, downsample it with spacing 10,
relabel it, rebuild statistics from it (object 2), second
summary-stats/histogram, second summary and table, second print, and color the
downsampled tree cyan. -/
def midTrace (demo : TreeM) : List Event :=
  [Event.demoTree true,
   Event.changeState SNTUIState.TRACING_PAUSED,
   Event.loadTree demo,
   Event.getAnalyzer false 0,
   Event.getStatistics false 1,
   Event.summarize 0 "TreeV Demo" true,
   Event.updateTable 0,
   Event.getSummaryStats 1,
   Event.histogramShow 1,
   Event.printLine "Smallest inter-node distance",
   Event.getTree false,
   Event.downSampleCall 10,
   Event.setLabel "10um downsampled",
   Event.newTreeStatistics 2,
   Event.getSummaryStats 2,
   Event.histogramShow 2,
   Event.summarize 0 "TreeV Demo (Downsampled)" true,
   Event.updateTable 0,
   Event.printLine "After downsampling",
   Event.setColor "cyan"]

/-- The host calls of the rendering tail after the second `snt.demoTree()`
succeeded with tree `d2y` (already colored yellow). -/
def tailTrace (d2y : TreeM) : List Event :=
  [Event.demoTree true,
   Event.setColor "yellow",
   Event.loadTree d2y,
   Event.recViewerShow,
   Event.updateAllViewers]

/-- Shallow embedding of `run()` of the source script, line by line.

`uiActive` is the truth value of `snt.getUI()` on entry; `demo1` and `demo2`
are the trees returned by the first and second `snt.demoTree()` call (`none`
for a null result).

Modelled from the spec: `snt.loadTree`, `snt.getTree` and the reconstruction
viewer are host services not present in this repository fragment.  The host
is modelled as keeping the list of loaded trees, which its 3D viewer renders;
`snt.getTree(False)` returns a live reference to the loaded tree, so the
script's in-place mutations (`downSample`, `setLabel`, `setColor`) are visible
in the viewer.  A null result of the second, unguarded `snt.demoTree()` makes
the following `tree.setColor("yellow")` raise an `AttributeError` on `None`,
which aborts the script with no dialog. -/
def run (uiActive : Bool) (demo1 demo2 : Option TreeM) : RunResult :=
  let ini : List Event := if uiActive then [] else [Event.initGUI true]
  match demo1 with
  | none =>
    { trace := ini ++ dialogTrace
      outcome := Outcome.earlyExit
      viewer := [] }
  | some demo =>
    let tree := downSample 10 demo
    let tree := { tree with label := some "10um downsampled" }
    let treeCyan := { tree with color := some "cyan" }
    match demo2 with
    | none =>
      { trace := ini ++ midTrace demo ++ [Event.demoTree false]
        outcome := Outcome.fault "AttributeError: setColor called on None"
        viewer := [treeCyan] }
    | some d2 =>
      let d2y := { d2 with color := some "yellow" }
      { trace := ini ++ midTrace demo ++ tailTrace d2y
        outcome := Outcome.finished
        viewer := [treeCyan, d2y] }

/-- Recognizes `showDialog` events. -/
def isShowDialog : Event → Bool
  | Event.showDialog _ _ => true
  | _ => false

/-- Recognizes `initGUI` events. -/
def isInitGUI : Event → Bool
  | Event.initGUI _ => true
  | _ => false

/-- Recognizes `loadTree` events. -/
def isLoadTree : Event → Bool
  | Event.loadTree _ => true
  | _ => false

/-- Recognizes `getAnalyzer` events. -/
def isGetAnalyzer : Event → Bool
  | Event.getAnalyzer _ _ => true
  | _ => false

/-- Recognizes `summarize` events. -/
def isSummarize : Event → Bool
  | Event.summarize _ _ _ => true
  | _ => false

/-- Recognizes `newTreeStatistics` events. -/
def isNewTreeStatistics : Event → Bool
  | Event.newTreeStatistics _ => true
  | _ => false

/-- Recognizes `getSummaryStats` events. -/
def isGetSummaryStats : Event → Bool
  | Event.getSummaryStats _ => true
  | _ => false

/-- Recognizes `printLine` events. -/
def isPrintLine : Event → Bool
  | Event.printLine _ => true
  | _ => false

/-! ## Structural lemmas about the downsampling model -/

/-- The thinned tail is a sublist of the original tail. -/
theorem dsAux_sublist (s2 : ℚ) : ∀ (l : List PointInImage) (k : PointInImage),
    List.Sublist (dsAux s2 k l) l
  | [], _ => by simp [dsAux]
  | [p], _ => by simp [dsAux]
  | p :: q :: rest, k => by
    rw [dsAux]
    by_cases h : s2 ≤ dist2 k p
    · simpa [h] using List.Sublist.cons₂ p (dsAux_sublist s2 (q :: rest) p)
    · simpa [h] using List.Sublist.cons p (dsAux_sublist s2 (q :: rest) k)

/-- Thinning a nonempty tail yields a nonempty list. -/
theorem dsAux_ne_nil (s2 : ℚ) : ∀ (l : List PointInImage) (k : PointInImage),
    l ≠ [] → dsAux s2 k l ≠ []
  | [], _ => by simp
  | [p], _ => by simp [dsAux]
  | p :: q :: rest, k => by
    intro _
    rw [dsAux]
    by_cases h : s2 ≤ dist2 k p
    · simp [h]
    · simpa [h] using dsAux_ne_nil s2 (q :: rest) k (by simp)

/-- Thinning preserves the last node. -/
theorem dsAux_getLast? (s2 : ℚ) : ∀ (l : List PointInImage) (k : PointInImage),
    (dsAux s2 k l).getLast? = l.getLast?
  | [], _ => rfl
  | [p], _ => by simp [dsAux]
  | p :: q :: rest, k => by
    rw [dsAux]
    by_cases h : s2 ≤ dist2 k p
    · simp only [if_pos h]
      rw [List.getLast?_cons_cons]
      rw [show (p :: dsAux s2 p (q :: rest)).getLast? = (dsAux s2 p (q :: rest)).getLast? from ?_]
      · exact dsAux_getLast? s2 (q :: rest) p
      · obtain ⟨x, xs, hx⟩ : ∃ x xs, dsAux s2 p (q :: rest) = x :: xs := by
          cases hd : dsAux s2 p (q :: rest) with
          | nil => exact absurd hd (dsAux_ne_nil s2 (q :: rest) p (by simp))
          | cons x xs => exact ⟨x, xs, rfl⟩
        rw [hx, List.getLast?_cons_cons]
    · simp only [if_neg h]
      rw [List.getLast?_cons_cons]
      exact dsAux_getLast? s2 (q :: rest) k

/-- Downsampling a path removes nodes but never moves one: the result is a
sublist of the original node sequence. -/
theorem downsamplePath_sublist (s2 : ℚ) (p : PathM) :
    List.Sublist (downsamplePath s2 p) p := by
  cases p with
  | nil => simp [downsamplePath]
  | cons a rest =>
    rw [downsamplePath]
    exact List.Sublist.cons₂ a (dsAux_sublist s2 rest a)

/-- Downsampling a path preserves its first node. -/
theorem downsamplePath_head? (s2 : ℚ) (p : PathM) :
    (downsamplePath s2 p).head? = p.head? := by
  cases p with
  | nil => rfl
  | cons a rest => rfl

/-- Downsampling a path preserves its last node. -/
theorem downsamplePath_getLast? (s2 : ℚ) (p : PathM) :
    (downsamplePath s2 p).getLast? = p.getLast? := by
  cases p with
  | nil => rfl
  | cons a rest =>
    rw [downsamplePath]
    cases rest with
    | nil => simp [dsAux]
    | cons b rbs =>
      rw [List.getLast?_cons_cons]
      rw [show (a :: dsAux s2 a (b :: rbs)).getLast? = (dsAux s2 a (b :: rbs)).getLast? from ?_]
      · exact dsAux_getLast? s2 (b :: rbs) a
      · obtain ⟨x, xs, hx⟩ : ∃ x xs, dsAux s2 a (b :: rbs) = x :: xs := by
          cases hd : dsAux s2 a (b :: rbs) with
          | nil => exact absurd hd (dsAux_ne_nil s2 (b :: rbs) a (by simp))
          | cons x xs => exact ⟨x, xs, rfl⟩
        rw [hx, List.getLast?_cons_cons]

/-! ## Lemmas about the list minimum -/

/-- The minimum of a list is one of its elements. -/
theorem minQ?_mem : ∀ {l : List ℚ} {m : ℚ}, minQ? l = some m → m ∈ l := by
  intro l
  induction l with
  | nil => intro m h; exact absurd h (by simp [minQ?])
  | cons a rest ih =>
    intro m h
    rw [minQ?] at h
    cases hr : minQ? rest with
    | none =>
      rw [hr] at h
      simp at h
      simp [h]
    | some b =>
      rw [hr] at h
      simp at h
      rcases min_cases a b with ⟨he, _⟩ | ⟨he, _⟩
      · rw [he] at h; simp [h]
      · rw [he] at h
        exact List.mem_cons_of_mem a (ih (h ▸ hr))

/-- The minimum of a list bounds every element from below. -/
theorem minQ?_le : ∀ {l : List ℚ} {m x : ℚ}, minQ? l = some m → x ∈ l → m ≤ x := by
  intro l
  induction l with
  | nil => intro m x _ hx; exact absurd hx (by simp)
  | cons a rest ih =>
    intro m x h hx
    rw [minQ?] at h
    cases hr : minQ? rest with
    | none =>
      cases rest with
      | nil =>
        rw [hr] at h
        simp at h hx
        rw [← h, hx]
      | cons b rbs => exact absurd hr (by simp [minQ?])
    | some b =>
      rw [hr] at h
      simp at h
      rcases List.mem_cons.mp hx with hxa | hxr
      · rw [← h, hxa]; exact min_le_left a b
      · calc m ≤ b := by rw [← h]; exact min_le_right a b
          _ ≤ x := ih hr hxr

/-- A nonempty list has a minimum. -/
theorem minQ?_isSome : ∀ {l : List ℚ}, l ≠ [] → ∃ m, minQ? l = some m := by
  intro l h
  cases l with
  | nil => exact absurd rfl h
  | cons a rest => exact ⟨_, rfl⟩

/-! ## Consecutive distances of a sublist are pairwise distances -/

/-- Membership in the pairwise-distance list of a cons. -/
theorem pairDist2s_cons_mem {a : PointInImage} {l : List PointInImage} {q : ℚ} :
    q ∈ pairDist2s (a :: l) ↔ (∃ b ∈ l, dist2 a b = q) ∨ q ∈ pairDist2s l := by
  rw [pairDist2s]
  simp [List.mem_append]

/-- Every consecutive-node squared distance of a sublist is a pairwise-node
squared distance of the original list. -/
theorem interDist2s_sublist_mem :
    ∀ {l1 l2 : List PointInImage}, List.Sublist l1 l2 →
      ∀ {q : ℚ}, q ∈ interDist2s l1 → q ∈ pairDist2s l2 := by
  intro l1 l2 h
  induction h with
  | slnil => intro q hq; exact absurd hq (by simp [interDist2s])
  | cons a h ih =>
    intro q hq
    exact pairDist2s_cons_mem.mpr (Or.inr (ih hq))
  | cons₂ a h ih =>
    intro q hq
    rename_i lt1 lt2
    cases lt1 with
    | nil => exact absurd hq (by simp [interDist2s])
    | cons b rbs =>
      rw [interDist2s] at hq
      rcases List.mem_cons.mp hq with hq1 | hq2
      · exact pairDist2s_cons_mem.mpr
          (Or.inl ⟨b, h.subset (by simp), hq1.symm⟩)
      · exact pairDist2s_cons_mem.mpr (Or.inr (ih hq2))

/-- Every inter-node squared distance of the downsampled tree is a pairwise
node squared distance of the original tree. -/
theorem treeDist2s_downSample_mem (d : ℚ) (t : TreeM) {q : ℚ}
    (hq : q ∈ treeDist2s (downSample d t)) : q ∈ treePairDist2s t := by
  rw [treeDist2s, downSample] at hq
  simp only [List.mem_flatten, List.mem_map] at hq
  obtain ⟨l, ⟨p0, ⟨p, hp, hp0⟩, hl⟩, hql⟩ := hq
  rw [treePairDist2s]
  simp only [List.mem_flatten, List.mem_map]
  refine ⟨pairDist2s p, ⟨p, hp, rfl⟩, ?_⟩
  subst hl hp0
  exact interDist2s_sublist_mem (downsamplePath_sublist _ p) hql

/-! ## Helper facts about the printed value -/

/-- For a nonnegative statistic the `%d`-printed integer is the floor. -/
theorem printedValue_eq_floor {m : ℚ} (hm : 0 ≤ m) : printedValue m = ⌊m⌋ := by
  rw [printedValue, Rat.floor_def]
  exact Int.tdiv_eq_ediv (Rat.num_nonneg.mpr hm) (Int.ofNat_nonneg m.den)

/-! ## Concrete trees used in counterexamples and witnesses -/

/-- A single-path tree with collinear nodes at positions `0`, `9`, `1`: its
middle node is within the 10-unit target spacing of the first node, so
downsampling drops it. -/
def cexTreeC2 : TreeM :=
  ⟨[[⟨0, 0, 0⟩, ⟨9, 0, 0⟩, ⟨1, 0, 0⟩]], none, none⟩

/-- A single-segment tree whose only inter-node distance is `3 / 2`, a
non-integral rational. -/
def fracTree : TreeM :=
  ⟨[[⟨0, 0, 0⟩, ⟨3 / 2, 0, 0⟩]], none, none⟩

/-- A minimal two-node demo tree. -/
def demo0 : TreeM :=
  ⟨[[⟨0, 0, 0⟩, ⟨1, 0, 0⟩]], none, none⟩

/-! ## The claims -/

/-- C1: if the demo-data load (`snt.demoTree()`) returns a null result,
`run()` shows exactly one error dialog via `ui.showDialog` and terminates
immediately: the trace consists of nothing but the optional GUI boot, the
failed `demoTree` call and the dialog, the dialog is the last host call, the
run ends in the early exit, and the viewer stays empty — so no pause, load,
statistics, downsampling or rendering call is ever made. -/
theorem c1_load_failure_one_dialog_then_stop :
    ∀ (uiActive : Bool) (demo2 : Option TreeM),
      (run uiActive none demo2).trace
          = (if uiActive then [] else [Event.initGUI true]) ++ dialogTrace ∧
      ((run uiActive none demo2).trace.filter isShowDialog).length = 1 ∧
      (run uiActive none demo2).trace.getLast?
          = some (Event.showDialog "Somehow could not load bundled file." "Error") ∧
      (run uiActive none demo2).outcome = Outcome.earlyExit ∧
      (run uiActive none demo2).viewer = [] := by
  intro uiActive demo2
  cases uiActive <;> exact ⟨rfl, rfl, rfl, rfl, rfl⟩

/-- C2, counterexample: the claim "downsampling never decreases the minimum
inter-node spacing" fails on the modelled downsampling.  On the collinear
path `0, 9, 1` the minimum squared inter-node distance is `64` before
downsampling with spacing `10`, but `1` afterwards (the middle node is
dropped, leaving the nearby endpoints adjacent).  Squared distances order
exactly as true distances, so the true minimum also decreases. -/
theorem c2_counterexample_min_decreases :
    minD2 cexTreeC2 = some 64 ∧
    minD2 (downSample 10 cexTreeC2) = some 1 ∧
    (1 : ℚ) < 64 := by
  refine ⟨?_, ?_, by norm_num⟩
  · norm_num [minD2, cexTreeC2, treeDist2s, interDist2s, dist2, minQ?]
  · norm_num [minD2, cexTreeC2, treeDist2s, interDist2s, dist2, minQ?,
      downSample, downsamplePath, dsAux]

/-- C2, amended: downsampling only removes nodes, so every inter-node
distance of the downsampled tree is a distance between two nodes of the
original tree; hence the minimum inter-node distance after `downSample 10`
is at least the minimum distance over all pairs of nodes within a path of
the original tree (though it may drop below the original minimum
consecutive-node distance). -/
theorem c2_amended_min_pairwise_lower_bound :
    ∀ (t : TreeM) (d : ℚ), minD2 (downSample 10 t) = some d →
      ∃ m, minPairD2 t = some m ∧ m ≤ d := by
  intro t d h
  have hd : d ∈ treeDist2s (downSample 10 t) := minQ?_mem h
  have hmem : d ∈ treePairDist2s t := treeDist2s_downSample_mem 10 t hd
  obtain ⟨m, hm⟩ := minQ?_isSome (List.ne_nil_of_mem hmem)
  exact ⟨m, hm, minQ?_le hm hmem⟩

/-- C2, witness: the amended bound instantiated on the concrete collinear
tree: the downsampled minimum `1` is bounded below by the original minimum
pairwise distance. -/
theorem c2_amended_witness :
    minD2 (downSample 10 cexTreeC2) = some 1 ∧
    ∃ m, minPairD2 cexTreeC2 = some m ∧ m ≤ 1 := by
  have h : minD2 (downSample 10 cexTreeC2) = some 1 := by
    norm_num [minD2, cexTreeC2, treeDist2s, interDist2s, dist2, minQ?,
      downSample, downsamplePath, dsAux]
  exact ⟨h, c2_amended_min_pairwise_lower_bound cexTreeC2 1 h⟩

/-- C3: `downSample 10` acts per path by the thinning `downsamplePath`, and
that thinning leaves the first and the last node of every path (the
topology-defining branch-point/tip positions of the model) unchanged and
removes, but never moves, interior 'shaft' nodes: the result is a sublist of
the original node sequence with the same head and the same last element. -/
theorem c3_endpoints_preserved :
    ∀ (t : TreeM) (p : PathM),
      (downSample 10 t).paths = t.paths.map (downsamplePath 100) ∧
      (downsamplePath 100 p).head? = p.head? ∧
      (downsamplePath 100 p).getLast? = p.getLast? ∧
      List.Sublist (downsamplePath 100 p) p := by
  intro t p
  refine ⟨?_, downsamplePath_head? 100 p, downsamplePath_getLast? 100 p,
    downsamplePath_sublist 100 p⟩
  norm_num [downSample]

/-- C4: in every run in which the demo tree loads, the host UI is put into
`TRACING_PAUSED` strictly before `snt.loadTree(demo)`: the trace starts with
the optional GUI boot and the `demoTree` call, immediately followed by the
`changeState` call and only then the `loadTree` call. -/
theorem c4_pause_before_bulk_load :
    ∀ (uiActive : Bool) (demo d2 : TreeM),
      ∃ post,
        (run uiActive (some demo) (some d2)).trace
          = (if uiActive then [] else [Event.initGUI true])
            ++ [Event.demoTree true,
                Event.changeState SNTUIState.TRACING_PAUSED,
                Event.loadTree demo]
            ++ post := by
  intro uiActive demo d2
  refine ⟨(midTrace demo).drop 3 ++ tailTrace { d2 with color := some "yellow" }, ?_⟩
  cases uiActive <;> rfl

/-- C5: if the host UI is not active on entry, the script's one and only
`initialize` request is `snt.initialize(True)` and it is the very first host
call; if the UI is already active, no `initialize` call occurs at all. -/
theorem c5_conditional_gui_boot :
    ∀ (demo1 demo2 : Option TreeM),
      (run false demo1 demo2).trace.filter isInitGUI = [Event.initGUI true] ∧
      (run false demo1 demo2).trace.head? = some (Event.initGUI true) ∧
      (run true demo1 demo2).trace.filter isInitGUI = [] := by
  intro demo1 demo2
  cases demo1 <;> cases demo2 <;> exact ⟨rfl, rfl, rfl⟩

/-- C6: at the end of every successful run the host 3D viewer holds exactly
two tree renderings: the in-place downsampled tree (relabelled
"10um downsampled") colored cyan, and the freshly re-fetched demo tree
colored yellow — two distinct colors. -/
theorem c6_viewer_two_colored_trees :
    ∀ (uiActive : Bool) (demo d2 : TreeM),
      (run uiActive (some demo) (some d2)).viewer
          = [⟨(downSample 10 demo).paths, some "10um downsampled", some "cyan"⟩,
             { d2 with color := some "yellow" }] ∧
      (run uiActive (some demo) (some d2)).viewer.length = 2 ∧
      (run uiActive (some demo) (some d2)).viewer.map TreeM.color
          = [some "cyan", some "yellow"] ∧
      ("cyan" : String) ≠ "yellow" := by
  intro uiActive demo d2
  cases uiActive <;> exact ⟨rfl, rfl, rfl, by decide⟩

/-- C7, counterexample: the claim "the printed value equals the computed
minimum" fails, because the script formats the (floating-point) minimum with
Python's `%d`, which truncates to an integer.  On a tree whose only
inter-node distance is `3 / 2`, the computed minimum is `3 / 2` but the
console shows `1`. -/
theorem c7_counterexample_truncated_print :
    isMinDist fracTree (3 / 2) ∧ ((printedValue (3 / 2) : ℚ) ≠ 3 / 2) := by
  constructor
  · constructor
    · norm_num
    · norm_num [minD2, fracTree, treeDist2s, interDist2s, dist2, minQ?]
  · rw [printedValue_eq_floor (by norm_num)]
    norm_num

/-- C7, amended: in every successful run the script prints the inter-node
distance minimum to the console exactly twice, once before and once after
downsampling; but each printed value is the integer truncation of the
computed minimum (the value sandwiched between it and it plus one), equal to
the computed minimum exactly when that minimum is an integer. -/
theorem c7_amended_prints_truncated_min :
    ∀ (uiActive : Bool) (demo d2 : TreeM),
      (run uiActive (some demo) (some d2)).trace.filter isPrintLine
          = [Event.printLine "Smallest inter-node distance",
             Event.printLine "After downsampling"] ∧
      ∀ m : ℚ, 0 ≤ m →
        (printedValue m : ℚ) ≤ m ∧
        m < (printedValue m : ℚ) + 1 ∧
        (((printedValue m : ℚ) = m) ↔ ∃ k : ℤ, m = (k : ℚ)) := by
  intro uiActive demo d2
  constructor
  · cases uiActive <;> rfl
  · intro m hm
    rw [printedValue_eq_floor hm]
    refine ⟨Int.floor_le m, Int.lt_floor_add_one m, ?_, ?_⟩
    · intro h
      exact ⟨⌊m⌋, h.symm⟩
    · rintro ⟨k, rfl⟩
      rw [Int.floor_intCast]

/-- C7, witness: the amended statement instantiated at a concrete run and at
the value `3`, whose printed form is itself. -/
theorem c7_amended_witness :
    (run true (some fracTree) (some fracTree)).trace.filter isPrintLine
        = [Event.printLine "Smallest inter-node distance",
           Event.printLine "After downsampling"] ∧
    (printedValue 3 : ℚ) ≤ 3 :=
  ⟨(c7_amended_prints_truncated_min true fracTree fracTree).1,
   ((c7_amended_prints_truncated_min true fracTree fracTree).2 3 (by norm_num)).1⟩

/-- C8, counterexample: the claim calls both guards "early-exit guard
conditions", but the UI-not-running guard does not exit: with the UI
inactive and both demo loads succeeding, the run boots the GUI as its first
host call and still finishes normally, its last host call being the final
viewer refresh. -/
theorem c8_counterexample_ui_guard_no_exit :
    (run false (some demo0) (some demo0)).trace.head? = some (Event.initGUI true) ∧
    (run false (some demo0) (some demo0)).outcome = Outcome.finished ∧
    (run false (some demo0) (some demo0)).trace.getLast? = some Event.updateAllViewers :=
  ⟨rfl, rfl, rfl⟩

/-- C8, amended: `run()` executes once, top to bottom, with exactly two
guard conditions and no other branching: the UI-not-running check triggers
GUI initialization and continues, while the demo-data-missing check is the
only early exit (with its dialog).  The run finishes normally exactly when
both demo loads succeed, and the trace length is fully determined by the
three guard-relevant inputs. -/
theorem c8_amended_two_guards_one_exit :
    ∀ (uiActive : Bool) (demo1 demo2 : Option TreeM),
      ((run uiActive demo1 demo2).outcome = Outcome.earlyExit ↔ demo1 = none) ∧
      ((run uiActive demo1 demo2).outcome = Outcome.finished
        ↔ demo1.isSome = true ∧ demo2.isSome = true) ∧
      ((run uiActive demo1 demo2).trace.filter isShowDialog
        = match demo1 with
          | none => [Event.showDialog "Somehow could not load bundled file." "Error"]
          | some _ => []) ∧
      ((run uiActive demo1 demo2).trace.length
        = (if uiActive then 0 else 1)
          + match demo1, demo2 with
            | none, _ => 2
            | some _, none => 21
            | some _, some _ => 25) := by
  intro uiActive demo1 demo2
  cases uiActive <;> cases demo1 <;> cases demo2 <;>
    exact ⟨by simp [run], by simp [run], rfl, rfl⟩

/-- C8, amended, witness: with the UI active and a null demo tree the run
takes the early exit. -/
theorem c8_amended_witness :
    (run true none none).outcome = Outcome.earlyExit :=
  (c8_amended_two_guards_one_exit true none none).1.mpr rfl

/-- C9: the second `snt.demoTree()` during the rendering step is not guarded:
if it returns null, the following `tree.setColor("yellow")` faults on `None`,
the run aborts with that fault, no dialog is ever shown, and none of the
remaining rendering calls (second `loadTree`, viewer show, viewer refresh)
is made — the failed `demoTree` call is the last host call of the trace. -/
theorem c9_second_load_unguarded_fault :
    ∀ (uiActive : Bool) (demo : TreeM),
      (run uiActive (some demo) none).outcome
          = Outcome.fault "AttributeError: setColor called on None" ∧
      (run uiActive (some demo) none).trace.filter isShowDialog = [] ∧
      (run uiActive (some demo) none).trace.getLast? = some (Event.demoTree false) ∧
      Event.updateAllViewers ∉ (run uiActive (some demo) none).trace ∧
      Event.recViewerShow ∉ (run uiActive (some demo) none).trace := by
  intro uiActive demo
  cases uiActive <;>
    exact ⟨rfl, rfl, rfl, by simp [run, midTrace], by simp [run, midTrace]⟩

/-- C10: only the statistics object is rebuilt after downsampling: the trace
holds a single `getAnalyzer` call (allocating analyzer `0`), both `summarize`
calls are made on that same analyzer `0`, the rebuilt `TreeStatistics` is a
fresh object `2` used only for the second `getSummaryStats`, and the
analyzer is created strictly before the `downSample` call. -/
theorem c10_analyzer_reused_after_downsample :
    ∀ (uiActive : Bool) (demo d2 : TreeM),
      (run uiActive (some demo) (some d2)).trace.filter isGetAnalyzer
          = [Event.getAnalyzer false 0] ∧
      (run uiActive (some demo) (some d2)).trace.filter isSummarize
          = [Event.summarize 0 "TreeV Demo" true,
             Event.summarize 0 "TreeV Demo (Downsampled)" true] ∧
      (run uiActive (some demo) (some d2)).trace.filter isNewTreeStatistics
          = [Event.newTreeStatistics 2] ∧
      (run uiActive (some demo) (some d2)).trace.filter isGetSummaryStats
          = [Event.getSummaryStats 1, Event.getSummaryStats 2] ∧
      ∃ mid post,
        (run uiActive (some demo) (some d2)).trace
          = (if uiActive then [] else [Event.initGUI true])
            ++ [Event.demoTree true,
                Event.changeState SNTUIState.TRACING_PAUSED,
                Event.loadTree demo,
                Event.getAnalyzer false 0]
            ++ mid ++ [Event.downSampleCall 10] ++ post := by
  intro uiActive demo d2
  refine ⟨?_, ?_, ?_, ?_,
    [Event.getStatistics false 1,
     Event.summarize 0 "TreeV Demo" true,
     Event.updateTable 0,
     Event.getSummaryStats 1,
     Event.histogramShow 1,
     Event.printLine "Smallest inter-node distance",
     Event.getTree false],
    [Event.setLabel "10um downsampled",
     Event.newTreeStatistics 2,
     Event.getSummaryStats 2,
     Event.histogramShow 2,
     Event.summarize 0 "TreeV Demo (Downsampled)" true,
     Event.updateTable 0,
     Event.printLine "After downsampling",
     Event.setColor "cyan"] ++ tailTrace { d2 with color := some "yellow" },
    ?_⟩ <;> cases uiActive <;> rfl
